import Mathlib

/-!
Verification of the catalog-and-order service (`src/main.py`, `src/schemas.py`)
against its natural-language specification.

The service's documents are JSON-like key-value mappings stored in a document
store with two collections, `product` and `order`.  We embed the document
values, the dictionaries, the store, and each operation of `main.py` as
executable Lean functions, and prove the specified properties about them.

Conventions of the embedding:
* Python dictionaries are association lists with distinct keys; update keeps
  the position of an existing key and otherwise appends, exactly as a Python
  `dict` does.
* A Python value is modelled by `Val`.  Numeric literals are carried as exact
  rationals; none of the modelled code paths perform arithmetic or numeric
  comparison on them, so the representation is only a carrier.
* Fallible Python code (code that can raise) is embedded as `Except String`,
  the string being the exception's message.
-/

set_option autoImplicit false

namespace AnimeShop

/-- A JSON-like Python value as it occurs in this service's documents:
strings, numbers, booleans, lists, nested dictionaries, `None`, and BSON
ObjectIds (carried as their hexadecimal string representation). -/
inductive Val where
  | str (s : String)
  | num (q : Rat)
  | bool (b : Bool)
  | list (xs : List Val)
  | dict (fields : List (String × Val))
  | oid (s : String)
  | none

/-- A Python dictionary: an association list whose keys are pairwise distinct. -/
abbrev PyDict := List (String × Val)

/-- `d[k]` lookup, `None`-free: `some v` when key `k` is present. -/
def dictGet? (d : PyDict) (k : String) : Option Val :=
  (d.find? (fun p => p.1 = k)).map (fun p => p.2)

/-- Python `d[k] = v`: replace the value in place when `k` is already present
(keeping its position), otherwise append the new pair at the end.  This is
also the semantics of the dict literal `{**d, k: v}`. -/
def dictSet (d : PyDict) (k : String) (v : Val) : PyDict :=
  if (d.find? (fun p => p.1 = k)).isSome then
    d.map (fun p => if p.1 = k then (k, v) else p)
  else
    d ++ [(k, v)]

/-- Python `d.pop(k)` after a successful lookup: the dictionary without key `k`. -/
def dictRemove (d : PyDict) (k : String) : PyDict :=
  d.filter (fun p => p.1 ≠ k)

/-- Python `str()` restricted to the values this service converts.  Only the
`oid` case (converting a BSON ObjectId identity to its hex string) and the
`str` case are exercised by the modelled code. -/
def pyStr : Val → String
  | .str s => s
  | .num q => toString q
  | .bool b => if b then "True" else "False"
  | .list _ => "<list>"
  | .dict _ => "<dict>"
  | .oid s => s
  | .none => "None"

/-- `to_str_id` from `src/main.py` lines 23-27: a falsy (empty) document is
returned unchanged; otherwise the internal `_id` is popped (a `KeyError`
when absent) and re-added under key `id` as its string representation. -/
def to_str_id (doc : PyDict) : Except String PyDict :=
  if doc.isEmpty then .ok doc
  else
    match dictGet? doc "_id" with
    | some v => .ok (dictSet (dictRemove doc "_id") "id" (Val.str (pyStr v)))
    | Option.none => .error "KeyError: _id"

/-- The configured document store (a MongoDB database in the source).
`failMsg` models the external store's failure mode: when it is `some m`,
every store operation raises an exception with message `m` (the
`StoreOperationFailure` mode of the specification's error taxonomy).
`nextId` is the counter from which the store assigns fresh document
identities; the assigned ObjectId of the n-th document is `toString n`,
a modelling of "system-assigned unique identity". -/
structure Store where
  name : String
  nextId : Nat
  failMsg : Option String
  product : List PyDict
  order : List PyDict

/-- The documents of a named collection (the two collections of the service). -/
def Store.coll (st : Store) : String → List PyDict
  | "product" => st.product
  | "order" => st.order
  | _ => []

/-- Replace the documents of a named collection. -/
def Store.setColl (st : Store) (c : String) (docs : List PyDict) : Store :=
  { st with
    product := if c = "product" then docs else st.product
    order := if c = "order" then docs else st.order }

/-- `db[coll].count_documents({})`: raises on store failure, otherwise the
number of documents in the collection. -/
def Store.countDocuments (st : Store) (c : String) : Except String Nat :=
  match st.failMsg with
  | some m => .error m
  | Option.none => .ok (st.coll c).length

/-- `db[coll].insert_many(docs)`: raises on store failure, otherwise appends
each document with a freshly assigned `_id` (stored as the document's first
field, as MongoDB does). -/
def Store.insertMany (st : Store) (c : String) (docs : List PyDict) : Except String Store :=
  match st.failMsg with
  | some m => .error m
  | Option.none =>
    let stamped := docs.enum.map (fun p => ("_id", Val.oid (toString (st.nextId + p.1))) :: p.2)
    .ok ({ st.setColl c (st.coll c ++ stamped) with nextId := st.nextId + docs.length })

/-- `db.list_collection_names()`: raises on store failure, otherwise the
names of the collections that hold documents. -/
def Store.listCollectionNames (st : Store) : Except String (List String) :=
  match st.failMsg with
  | some m => .error m
  | Option.none =>
    .ok ((if st.product.isEmpty then [] else ["product"]) ++
         (if st.order.isEmpty then [] else ["order"]))

/-- Python truthiness of an `Optional[str]` parameter: `None` and the empty
string are falsy (`if character:` in `src/main.py` lines 92, 94, 96). -/
def strTruthy : Option String → Bool
  | Option.none => false
  | some s => !s.isEmpty

/-- Does the second character sequence start with the first? -/
def headMatch : List Char → List Char → Bool
  | [], _ => true
  | _ :: _, [] => false
  | a :: as, b :: bs => a == b && headMatch as bs

/-- Does the second character sequence contain the first as a contiguous
subsequence? -/
def containsSeq (needle : List Char) : List Char → Bool
  | [] => needle.isEmpty
  | b :: bs => headMatch needle (b :: bs) || containsSeq needle bs

/-- Case-insensitive substring containment: does `hay` contain `needle`
ignoring case?  Lower-casing is applied character by character, as
`String.toLower` does. -/
def ciContains (hay needle : String) : Bool :=
  containsSeq (needle.toList.map Char.toLower) (hay.toList.map Char.toLower)

/-- Modelled from the spec: the external Document Store Adapter's matching of
a `{"$regex": pat, "$options": "i"}` clause against a document field, for the
literal (metacharacter-free) patterns this service's filters are, per the
spec: "contains it as a case-insensitive substring".  A missing or
non-string field value never matches. -/
def regexIMatch (pat : String) : Option Val → Bool
  | some (.str s) => ciContains s pat
  | _ => false

/-- Modelled from the spec: the external Document Store Adapter's matching of
an equality clause `{"colors": c}` against a field that holds a list (the
Product shape's `colors`): the list must contain `c` as an exact (string)
element; a plain string field matches by equality; anything else never
matches. -/
def eqMatch (c : String) : Option Val → Bool
  | some (.str s) => s = c
  | some (.list xs) => xs.any (fun v => match v with | .str s => s = c | _ => false)
  | _ => false

/-- The query document `filt` built by `list_products` (`src/main.py` lines
91-101).  The Python dict has at most the three keys `character`, `colors`
and `$or`; each field below is `some` exactly when the corresponding key was
added. -/
structure Filt where
  character : Option String := Option.none
  colors : Option String := Option.none
  orQ : Option String := Option.none

/-- Filter construction of `list_products` (`src/main.py` lines 91-101):
each clause is added only when the parameter is truthy (present and
non-empty). -/
def buildFilt (character color q : Option String) : Filt :=
  let f : Filt := {}
  let f := if strTruthy character then { f with character := character } else f
  let f := if strTruthy color then { f with colors := color } else f
  if strTruthy q then { f with orQ := q } else f

/-- Evaluation of one optional clause of the query document: an absent
clause constrains nothing. -/
def filtClause (o : Option String) (m : String → Bool) : Bool :=
  match o with
  | Option.none => true
  | some s => m s

/-- Modelled from the spec: the external Document Store Adapter's evaluation
of the query document built by `list_products` against a stored document —
the conjunction of its clauses, the `$or` clause being the disjunction of
regex matches on `title`, `description` and `character` (`src/main.py`
lines 97-101). -/
def matchesFilt (f : Filt) (d : PyDict) : Bool :=
  filtClause f.character (fun c => regexIMatch c (dictGet? d "character")) &&
  filtClause f.colors (fun c => eqMatch c (dictGet? d "colors")) &&
  filtClause f.orQ (fun q =>
    regexIMatch q (dictGet? d "title") ||
    regexIMatch q (dictGet? d "description") ||
    regexIMatch q (dictGet? d "character"))

/-- `db[coll].find(filt)`: raises on store failure, otherwise the documents
of the collection matching the query. -/
def Store.findDocs (st : Store) (c : String) (f : Filt) : Except String (List PyDict) :=
  match st.failMsg with
  | some m => .error m
  | Option.none => .ok ((st.coll c).filter (matchesFilt f))

/-- The static fallback product list of `list_products` (`src/main.py`
lines 84-88), returned when the store is unavailable. -/
def fallbackProducts : List PyDict :=
  [ [("id", .str "1"), ("title", .str "Shadow Ninja Hoodie"), ("character", .str "Itachi"),
     ("price", .num 59.99),
     ("colors", .list [.str "black", .str "white", .str "purple"]),
     ("image", .str "https://images.unsplash.com/photo-1544025162-d76694265947?q=80&w=1200&auto=format&fit=crop")],
    [("id", .str "2"), ("title", .str "Thunder Breather Jacket"), ("character", .str "Zenitsu"),
     ("price", .num 74.99),
     ("colors", .list [.str "black", .str "white", .str "purple"]),
     ("image", .str "https://images.unsplash.com/photo-1490481651871-ab68de25d43d?q=80&w=1200&auto=format&fit=crop")],
    [("id", .str "3"), ("title", .str "Survey Corps Cloak"), ("character", .str "Levi"),
     ("price", .num 89.99),
     ("colors", .list [.str "black", .str "white", .str "purple"]),
     ("image", .str "https://images.unsplash.com/photo-1520975922284-5f5730b979bc?q=80&w=1200&auto=format&fit=crop")] ]

/-- A Python list comprehension over a function that can raise: the first
exception propagates, otherwise the list of results. -/
def mapExcept (f : PyDict → Except String PyDict) : List PyDict → Except String (List PyDict)
  | [] => .ok []
  | d :: t =>
      match f d with
      | .error e => .error e
      | .ok d2 =>
          match mapExcept f t with
          | .error e => .error e
          | .ok t2 => .ok (d2 :: t2)

/-- `list_products` (`src/main.py` lines 80-104): with no store, the static
fallback; otherwise build the filter, query the `product` collection, and
pass every match through `to_str_id` (`[to_str_id(p) for p in products]`).
An exception raised by the store (or by `to_str_id`) propagates out of the
endpoint. -/
def list_products (db : Option Store) (character color q : Option String) :
    Except String (List PyDict) :=
  match db with
  | Option.none => .ok fallbackProducts
  | some st => do
      let filt := buildFilt character color q
      let products ← st.findDocs "product" filt
      mapExcept to_str_id products

/-- The seed list of `seed_products` (`src/main.py` lines 35-66). -/
def seedData : List PyDict :=
  [ [("title", .str "Shadow Ninja Hoodie"), ("character", .str "Itachi"),
     ("description", .str "Oversized streetwear hoodie inspired by Itachi's cloak."),
     ("price", .num 59.99),
     ("colors", .list [.str "black", .str "white", .str "purple"]),
     ("sizes", .list [.str "S", .str "M", .str "L", .str "XL"]),
     ("image", .str "https://images.unsplash.com/photo-1544025162-d76694265947?q=80&w=1200&auto=format&fit=crop"),
     ("in_stock", .bool true)],
    [("title", .str "Thunder Breather Jacket"), ("character", .str "Zenitsu"),
     ("description", .str "Lightweight coach jacket with subtle lightning pattern."),
     ("price", .num 74.99),
     ("colors", .list [.str "black", .str "white", .str "purple"]),
     ("sizes", .list [.str "S", .str "M", .str "L", .str "XL"]),
     ("image", .str "https://images.unsplash.com/photo-1490481651871-ab68de25d43d?q=80&w=1200&auto=format&fit=crop"),
     ("in_stock", .bool true)],
    [("title", .str "Survey Corps Cloak"), ("character", .str "Levi"),
     ("description", .str "Minimalist green cloak reimagined in monochrome."),
     ("price", .num 89.99),
     ("colors", .list [.str "black", .str "white", .str "purple"]),
     ("sizes", .list [.str "S", .str "M", .str "L", .str "XL"]),
     ("image", .str "https://images.unsplash.com/photo-1520975922284-5f5730b979bc?q=80&w=1200&auto=format&fit=crop"),
     ("in_stock", .bool true)] ]

/-- `seed_products` (`src/main.py` lines 30-67): no store, do nothing;
otherwise count the `product` collection and insert the seed list exactly
when the count is zero.  Store exceptions propagate (they are swallowed by
the caller `startup_event`, not here). -/
def seed_products (db : Option Store) : Except String (Option Store) :=
  match db with
  | Option.none => .ok Option.none
  | some st => do
      let count ← st.countDocuments "product"
      if count = 0 then
        let st2 ← st.insertMany "product" seedData
        pure (some st2)
      else
        pure (some st)

/-- The request body model `CreateOrder` of `src/main.py` lines 106-111:
`items` is a list of free-form dictionaries, the three customer fields are
plain strings (note: `customer_email` is `str`, not `EmailStr`), `note` is
optional. -/
structure CreateOrder where
  items : List PyDict
  customer_name : String
  customer_email : String
  customer_address : String
  note : Option String

/-- An HTTP error response: FastAPI's `HTTPException` (status 500 in
`create_order`) or a request-validation rejection (status 422). -/
structure HTTPError where
  status_code : Nat
  detail : String
  deriving DecidableEq

/-- Read a value as a Python dict. -/
def asDict : Val → Option PyDict
  | .dict fields => some fields
  | _ => Option.none

/-- FastAPI/pydantic validation of a request body against the `CreateOrder`
model (`src/main.py` lines 106-111): `items` must be present and be a list
of dictionaries; `customer_name`, `customer_email` and `customer_address`
must be present and be strings (no email-syntax check — the field is a
plain `str`); `note` is optional and defaults to `None`.  Extra keys are
ignored.  The error message names the first violated field (pydantic
reports every violated field; naming the first suffices for this model). -/
def validateCreateOrder (body : PyDict) : Except String CreateOrder := do
  let items ←
    match dictGet? body "items" with
    | Option.none => .error "field required: items"
    | some (.list xs) =>
        match xs.mapM asDict with
        | some ds => .ok ds
        | Option.none => .error "items: value is not a valid dict"
    | some _ => .error "items: value is not a valid list"
  let takeStr (field : String) : Except String String :=
    match dictGet? body field with
    | Option.none => .error ("field required: " ++ field)
    | some (.str s) => .ok s
    | some _ => .error (field ++ ": str type expected")
  let name ← takeStr "customer_name"
  let email ← takeStr "customer_email"
  let addr ← takeStr "customer_address"
  let note ←
    match dictGet? body "note" with
    | Option.none => .ok Option.none
    | some Val.none => .ok Option.none
    | some (.str s) => .ok (some s)
    | some _ => .error "note: str type expected"
  .ok ⟨items, name, email, addr, note⟩

/-- `payload.model_dump()` (`src/main.py` line 116): the payload's fields as
a dictionary, in declaration order.  The model has no `status` field, so the
dump carries none. -/
def CreateOrder.model_dump (p : CreateOrder) : PyDict :=
  [("items", Val.list (p.items.map Val.dict)),
   ("customer_name", Val.str p.customer_name),
   ("customer_email", Val.str p.customer_email),
   ("customer_address", Val.str p.customer_address),
   ("note", match p.note with | some s => Val.str s | Option.none => Val.none)]

/-- Modelled from the spec: `create_document` comes from the repository's
`database` module, which is not under `src/`; per the spec it inserts a new
document into the named collection "with status defaulted to `pending`" and
returns "the newly assigned identity as a string".  A store failure raises
with the store's message. -/
def create_document (st : Store) (c : String) (data : PyDict) : Except String (String × Store) :=
  match st.failMsg with
  | some m => .error m
  | Option.none =>
    let doc := if (dictGet? data "status").isSome then data
               else data ++ [("status", Val.str "pending")]
    let docId := toString st.nextId
    let st2 := { st.setColl c (st.coll c ++ [("_id", Val.oid docId) :: doc]) with
                 nextId := st.nextId + 1 }
    .ok (docId, st2)

/-- The handler `create_order` (`src/main.py` lines 113-119): insert the
dumped payload via `create_document` and answer
`{"id": order_id, "status": "created"}`; any exception becomes an
`HTTPException` with status 500 and the exception's message as detail. -/
def create_order (st : Store) (payload : CreateOrder) : Except HTTPError (PyDict × Store) :=
  match create_document st "order" payload.model_dump with
  | .ok (orderId, st2) => .ok ([("id", Val.str orderId), ("status", Val.str "created")], st2)
  | .error e => .error ⟨500, e⟩

/-- The full `POST /api/orders` operation: FastAPI validates the body
against `CreateOrder` (a 422 client-side validation error on failure,
before the handler — and hence before any store access — runs), then the
handler executes. -/
def create_order_endpoint (st : Store) (body : PyDict) : Except HTTPError (PyDict × Store) :=
  match validateCreateOrder body with
  | .error msg => .error ⟨422, msg⟩
  | .ok payload => create_order st payload

/-- The response dictionary of the `/test` endpoint (`src/main.py` lines
123-130), with each field at its Python type (`database_url` and
`database_name` start as `None`). -/
structure TestResponse where
  backend : String
  database : String
  database_url : Option String
  database_name : Option String
  connection_status : String
  collections : List String
  deriving DecidableEq

/-- `test_database` (`src/main.py` lines 121-150).  `env_url` and
`env_name` are `os.getenv("DATABASE_URL")` and `os.getenv("DATABASE_NAME")`
(`None` when unset; an env var set to the empty string is falsy in Python,
hence reported "Not Set").  The inner `try` catches a
`list_collection_names` failure; nothing else in the body can raise, so the
outer `except` is never taken and the endpoint always returns a response. -/
def test_database (db : Option Store) (env_url env_name : Option String) : TestResponse :=
  let r : TestResponse :=
    { backend := "✅ Running"
      database := "❌ Not Available"
      database_url := Option.none
      database_name := Option.none
      connection_status := "Not Connected"
      collections := [] }
  let r :=
    match db with
    | some st =>
        let r := { r with
          database := "✅ Available"
          database_url := some "✅ Configured"
          database_name := some st.name
          connection_status := "Connected" }
        match st.listCollectionNames with
        | .ok cols =>
            { r with collections := cols.take 10, database := "✅ Connected & Working" }
        | .error e =>
            { r with database := "⚠️  Connected but Error: " ++ e.take 50 }
    | Option.none => { r with database := "⚠️  Available but not initialized" }
  { r with
    database_url := some (if strTruthy env_url then "✅ Set" else "❌ Not Set")
    database_name := some (if strTruthy env_name then "✅ Set" else "❌ Not Set") }

/-- Does the document's string field `field` contain `pat` as a
case-insensitive substring?  A missing or non-string field does not. -/
def fieldCi (d : PyDict) (field pat : String) : Bool :=
  match dictGet? d field with
  | some (.str s) => ciContains s pat
  | _ => false

/-- Does the document's `colors` list contain `c` as an exact element? -/
def colorsHas (d : PyDict) (c : String) : Bool :=
  match dictGet? d "colors" with
  | some (.list xs) => xs.any (fun v => match v with | .str s => s = c | _ => false)
  | _ => false

/-- A filter clause applies only when the parameter is present and
non-empty (an empty-string parameter is treated as absent, claim C10). -/
def specClause (o : Option String) (m : String → Bool) : Bool :=
  match o with
  | Option.none => true
  | some s => if s.isEmpty then true else m s

/-- The product-selection predicate as the specification words it (the
refinement target of claim C4): the conjunction of the present filters,
where `character` matches products whose character field contains it as a
case-insensitive substring, `color` matches products whose colors list
contains it as an exact element, and `q` matches products where title OR
description OR character contains it as a case-insensitive substring. -/
def specMatches (character color q : Option String) (d : PyDict) : Bool :=
  specClause character (fun c => fieldCi d "character" c) &&
  specClause color (fun c => colorsHas d c) &&
  specClause q (fun s => fieldCi d "title" s || fieldCi d "description" s || fieldCi d "character" s)

/-- The Product shape fact the filter refinement relies on: the `colors`
field, when present, holds a list (`colors: List[str]` in the Product
model of `src/schemas.py`). -/
def colorsListOk (d : PyDict) : Bool :=
  match dictGet? d "colors" with
  | some (.list _) => true
  | some _ => false
  | Option.none => true

/-- Does the stored document carry an internal identity? -/
def hasId (d : PyDict) : Bool :=
  (dictGet? d "_id").isSome

/-- The public form of a stored document: the internal `_id` removed and
re-added under key `id` as its string representation — the action of
`to_str_id` on a document that has an identity. -/
def publicView (d : PyDict) : PyDict :=
  match dictGet? d "_id" with
  | some v => dictSet (dictRemove d "_id") "id" (Val.str (pyStr v))
  | Option.none => d

/-- A fresh configured store with empty collections. -/
def emptyStore : Store :=
  { name := "appdb", nextId := 1, failMsg := Option.none, product := [], order := [] }

/-- A configured store whose external half fails every operation with the
given message. -/
def failingStore (m : String) : Store :=
  { name := "appdb", nextId := 1, failMsg := some m, product := [], order := [] }

/-- An order body whose `customer_email` is the given string and whose
other fields are well-formed. -/
def orderBody (email : String) : PyDict :=
  [("items", Val.list [Val.dict [("product_id", Val.str "1"), ("quantity", Val.num 2)]]),
   ("customer_name", Val.str "Ada"),
   ("customer_email", Val.str email),
   ("customer_address", Val.str "12 Wall St")]

/-- An order body in which `customer_email` is missing altogether. -/
def orderBodyNoEmail : PyDict :=
  [("items", Val.list [Val.dict [("product_id", Val.str "1"), ("quantity", Val.num 2)]]),
   ("customer_name", Val.str "Ada"),
   ("customer_address", Val.str "12 Wall St")]

/-- Replace a filter parameter supplied as the empty string by an absent
one (the normalisation claim C10 says `list_products` performs). -/
def normParam (o : Option String) : Option String :=
  if o = some "" then Option.none else o

/-- The `CreateOrder` value that validating `orderBody "ada@example.com"`
produces. -/
def demoPayload : CreateOrder :=
  ⟨[[("product_id", Val.str "1"), ("quantity", Val.num 2)]],
   "Ada", "ada@example.com", "12 Wall St", Option.none⟩

/-- A configured store holding one Product-shaped document. -/
def demoProductStore : Store :=
  { name := "appdb", nextId := 2, failMsg := Option.none,
    product := [[("_id", Val.oid "1"), ("title", Val.str "Survey Corps Cloak"),
                 ("character", Val.str "Levi"), ("price", Val.num 89.99),
                 ("colors", Val.list [Val.str "black"])]],
    order := [] }

end AnimeShop

namespace AnimeShop

theorem to_str_id_hasId (d : PyDict) (h : hasId d = true) :
    to_str_id d = .ok (publicView d) := by
  cases d with
  | nil => simp [hasId, dictGet?] at h
  | cons a l =>
      unfold to_str_id publicView
      cases hv : dictGet? (a :: l) "_id" with
      | none => rw [hasId, hv] at h; simp at h
      | some v => simp

theorem mapExcept_to_str_id (l : List PyDict) (h : ∀ d ∈ l, hasId d = true) :
    mapExcept to_str_id l = .ok (l.map publicView) := by
  induction l with
  | nil => rfl
  | cons d t ih =>
      have hd : hasId d = true := h d (by simp)
      have ht : ∀ x ∈ t, hasId x = true := fun x hx => h x (by simp [hx])
      simp [mapExcept, to_str_id_hasId d hd, ih ht]

theorem buildFilt_eta (c k q : Option String) :
    buildFilt c k q =
      { character := if strTruthy c then c else Option.none
        colors := if strTruthy k then k else Option.none
        orQ := if strTruthy q then q else Option.none } := by
  unfold buildFilt
  by_cases h1 : strTruthy c = true <;> by_cases h2 : strTruthy k = true <;>
    by_cases h3 : strTruthy q = true <;> simp [h1, h2, h3]

theorem regexIMatch_eq_fieldCi (d : PyDict) (f : String) (pat : String) :
    regexIMatch pat (dictGet? d f) = fieldCi d f pat := by
  unfold regexIMatch fieldCi
  cases dictGet? d f with
  | none => rfl
  | some v => cases v <;> rfl

theorem eqMatch_eq_colorsHas (d : PyDict) (h : colorsListOk d = true) (c : String) :
    eqMatch c (dictGet? d "colors") = colorsHas d c := by
  unfold eqMatch colorsHas
  unfold colorsListOk at h
  cases hv : dictGet? d "colors" with
  | none => rfl
  | some v => rw [hv] at h; cases v <;> simp_all

theorem filtClause_strTruthy (o : Option String) (m : String → Bool) :
    filtClause (if strTruthy o then o else Option.none) m = specClause o m := by
  cases o with
  | none => simp [strTruthy, filtClause, specClause]
  | some s => by_cases he : s.isEmpty = true <;> simp [strTruthy, filtClause, specClause, he]

theorem matchesFilt_buildFilt (d : PyDict) (h : colorsListOk d = true) (c k q : Option String) :
    matchesFilt (buildFilt c k q) d = specMatches c k q d := by
  rw [buildFilt_eta]
  unfold matchesFilt specMatches
  simp only [filtClause_strTruthy, regexIMatch_eq_fieldCi, eqMatch_eq_colorsHas d h]

theorem list_products_connected (st : Store) (character color q : Option String)
    (hfail : st.failMsg = Option.none)
    (hcolors : ∀ d ∈ st.product, colorsListOk d = true)
    (hid : ∀ d ∈ st.product, hasId d = true) :
    list_products (some st) character color q =
      .ok ((st.product.filter (specMatches character color q)).map publicView) := by
  obtain ⟨nm, ni, fm, pr, od⟩ := st
  have hfm : fm = Option.none := hfail
  subst hfm
  have hcolors2 : ∀ d ∈ pr, colorsListOk d = true := hcolors
  have hid2 : ∀ d ∈ pr, hasId d = true := hid
  have h1 : list_products (some ⟨nm, ni, Option.none, pr, od⟩) character color q
      = mapExcept to_str_id (pr.filter (matchesFilt (buildFilt character color q))) := rfl
  rw [h1,
    List.filter_congr (fun d hd => matchesFilt_buildFilt d (hcolors2 d hd) character color q)]
  exact mapExcept_to_str_id _ (fun d hd => hid2 d (List.mem_of_mem_filter hd))

/-- C3: for every combination of the filter parameters (each possibly
absent), when the store is unavailable `list_products` does not fail and
returns exactly the three hard-coded fallback products, whose `id` fields
are the literal strings "1", "2", "3", in that order. -/
theorem fallback_on_store_unavailable (character color q : Option String) :
    list_products Option.none character color q = .ok fallbackProducts ∧
    fallbackProducts.length = 3 ∧
    fallbackProducts.map (fun d => dictGet? d "id") =
      [some (Val.str "1"), some (Val.str "2"), some (Val.str "3")] :=
  ⟨rfl, rfl, rfl⟩

/-- C5: the Identity Mapper sends a document of the form
`{"_id": X, ...rest}` to `{...rest, "id": str(X)}` (the internal `_id`
removed, `id` holding its string representation, positioned as the dict
literal would place it), and sends the empty document to itself. -/
theorem to_str_id_contract (x : Val) (rest : PyDict)
    (h : ∀ p ∈ rest, p.1 ≠ "_id") :
    to_str_id (("_id", x) :: rest) = .ok (dictSet rest "id" (Val.str (pyStr x))) ∧
    to_str_id ([] : PyDict) = .ok [] := by
  refine ⟨?_, rfl⟩
  have h1 : dictGet? (("_id", x) :: rest) "_id" = some x := by simp [dictGet?]
  have h2 : dictRemove (("_id", x) :: rest) "_id" = rest := by
    unfold dictRemove
    rw [List.filter_cons_of_neg (by simp)]
    exact List.filter_eq_self.mpr (fun p hp => by simpa using h p hp)
  simp [to_str_id, h1, h2]

/-- C8: against a store holding exactly the three seeded demo products,
listing with the single filter `character="Levi"` returns exactly one
product, and its title is "Survey Corps Cloak". -/
theorem seeded_levi_single_match :
    (do
      let db ← seed_products (some emptyStore)
      let l ← list_products db (some "Levi") Option.none Option.none
      pure (l.length, l.map (fun d => dictGet? d "title"))
      : Except String (Nat × List (Option Val))) =
    .ok (1, [some (Val.str "Survey Corps Cloak")]) := rfl

/-- C4: for every store of product documents and every combination of
optional filters, `list_products` returns exactly the products matching
the conjunction (logical AND) of the present filters — `character` by
case-insensitive substring on the character field, `color` by exact
element membership in the colors list, `q` by case-insensitive substring
on title OR description OR character — each mapped to its public form;
with no filter present it returns every product in the collection.
(A filter supplied as the empty string counts as absent, per C10.) -/
theorem list_products_refines_spec (st : Store) (character color q : Option String)
    (hfail : st.failMsg = Option.none)
    (hcolors : ∀ d ∈ st.product, colorsListOk d = true)
    (hid : ∀ d ∈ st.product, hasId d = true) :
    list_products (some st) character color q =
      .ok ((st.product.filter (specMatches character color q)).map publicView) ∧
    list_products (some st) Option.none Option.none Option.none =
      .ok (st.product.map publicView) := by
  refine ⟨list_products_connected st character color q hfail hcolors hid, ?_⟩
  rw [list_products_connected st Option.none Option.none Option.none hfail hcolors hid]
  have hall : st.product.filter (specMatches Option.none Option.none Option.none) =
      st.product :=
    List.filter_eq_self.mpr (fun d _ => rfl)
  rw [hall]

/-- C10: a filter parameter supplied as the empty string is treated
exactly as an absent one — the constructed predicate is unchanged — and a
request whose three filters are all empty returns every product of the
collection. -/
theorem empty_filter_params_ignored (st : Store) (character color q : Option String)
    (hfail : st.failMsg = Option.none) :
    list_products (some st) character color q =
      list_products (some st) (normParam character) (normParam color) (normParam q) ∧
    list_products (some st) (some "") (some "") (some "") =
      mapExcept to_str_id st.product := by
  have hnorm : ∀ o : Option String,
      (if strTruthy (normParam o) then normParam o else Option.none) =
      (if strTruthy o then o else Option.none) := by
    intro o
    cases o with
    | none => rfl
    | some s =>
        by_cases hs : s = ""
        · subst hs; rfl
        · have h1 : normParam (some s) = some s := by simp [normParam, hs]
          rw [h1]
  have hb : buildFilt (normParam character) (normParam color) (normParam q) =
      buildFilt character color q := by
    rw [buildFilt_eta, buildFilt_eta, hnorm, hnorm, hnorm]
  obtain ⟨nm, ni, fm, pr, od⟩ := st
  have hfm : fm = Option.none := hfail
  subst hfm
  constructor
  · show mapExcept to_str_id (pr.filter (matchesFilt (buildFilt character color q))) =
        mapExcept to_str_id
          (pr.filter (matchesFilt
            (buildFilt (normParam character) (normParam color) (normParam q))))
    rw [hb]
  · show mapExcept to_str_id
        (pr.filter (matchesFilt (buildFilt (some "") (some "") (some "")))) =
      mapExcept to_str_id pr
    have hall : pr.filter (matchesFilt (buildFilt (some "") (some "") (some ""))) = pr :=
      List.filter_eq_self.mpr (fun d _ => rfl)
    rw [hall]

/-- C6: the Seed Initializer inserts its three fixed demo product
documents if and only if the `product` collection is empty: a non-empty
collection is left untouched, and seeding an empty store yields exactly 3
products (the three demo documents, up to their assigned identities) on
which a second invocation is a no-op — 3 documents, not 6. -/
theorem seed_products_exactly_once (st : Store) (hfail : st.failMsg = Option.none) :
    (st.product.length ≠ 0 → seed_products (some st) = .ok (some st)) ∧
    (st.product.length = 0 →
      ∃ st2, seed_products (some st) = .ok (some st2) ∧
        st2.product.length = 3 ∧
        st2.product.map (fun d => dictRemove d "_id") = seedData ∧
        seed_products (some st2) = .ok (some st2)) := by
  obtain ⟨nm, ni, fm, pr, od⟩ := st
  have hfm : fm = Option.none := hfail
  subst hfm
  constructor
  · intro hne
    cases pr with
    | nil => exact absurd rfl hne
    | cons p t => rfl
  · intro hzero
    have hpr : pr = [] := List.length_eq_zero.mp hzero
    subst hpr
    exact ⟨_, rfl, rfl, rfl, rfl⟩

/-- C1: every payload accepted by order-creation validation is inserted
into the `order` collection as a document whose `status` field is
"pending", and the response is a mapping with `status` "created" and `id`
the newly assigned identity as a string. -/
theorem create_order_success_contract (st : Store) (body : PyDict) (p : CreateOrder)
    (hfail : st.failMsg = Option.none)
    (hvalid : validateCreateOrder body = .ok p) :
    ∃ st2 d,
      create_order_endpoint st body =
        .ok ([("id", Val.str (toString st.nextId)), ("status", Val.str "created")], st2) ∧
      st2.order = st.order ++ [d] ∧
      dictGet? d "status" = some (Val.str "pending") ∧
      dictGet? d "_id" = some (Val.oid (toString st.nextId)) := by
  obtain ⟨nm, ni, fm, pr, od⟩ := st
  have hfm : fm = Option.none := hfail
  subst hfm
  have h1 : create_order_endpoint ⟨nm, ni, Option.none, pr, od⟩ body =
      create_order ⟨nm, ni, Option.none, pr, od⟩ p := by
    unfold create_order_endpoint
    rw [hvalid]
  exact ⟨_, _, h1, rfl, rfl, rfl⟩

/-- C9: when the configured store's insert fails, order creation fails
with a ServerError (HTTP 500) whose detail equals the underlying failure's
message, and no success response is returned. -/
theorem create_order_store_error (st : Store) (m : String) (body : PyDict) (p : CreateOrder)
    (hfail : st.failMsg = some m)
    (hvalid : validateCreateOrder body = .ok p) :
    create_order_endpoint st body = .error ⟨500, m⟩ := by
  simp only [create_order_endpoint, hvalid, create_order, create_document, hfail]

/-- C7: the diagnostics endpoint is total over every store state: a store
failure during collection listing is rendered as a descriptive status
string (the failure message truncated to 50 characters), and the two
environment flags report only presence ("Set"/"Not Set") of the
connection-string and database-name variables, never their values. -/
theorem test_database_never_fails (db : Option Store) (u n : Option String) :
    (test_database db u n).database_url =
      some (if strTruthy u then "✅ Set" else "❌ Not Set") ∧
    (test_database db u n).database_name =
      some (if strTruthy n then "✅ Set" else "❌ Not Set") ∧
    (test_database db u n).backend = "✅ Running" ∧
    (test_database db u n).database =
      (match db with
       | Option.none => "⚠️  Available but not initialized"
       | some st =>
           match st.failMsg with
           | some m => "⚠️  Connected but Error: " ++ m.take 50
           | Option.none => "✅ Connected & Working") := by
  rcases db with _ | st
  · exact ⟨rfl, rfl, rfl, rfl⟩
  · obtain ⟨nm, ni, fm, pr, od⟩ := st
    rcases fm with _ | m
    · exact ⟨rfl, rfl, rfl, rfl⟩
    · exact ⟨rfl, rfl, rfl, rfl⟩

/-- C2 as stated fails on the code: `CreateOrder.customer_email` is a
plain `str`, so the empty-string email passes validation and the order is
written to the store — it is not rejected with a client-side validation
error. -/
theorem empty_email_accepted_cex :
    (validateCreateOrder (orderBody "")).isOk = true ∧
    ∃ st2, create_order_endpoint emptyStore (orderBody "") =
        .ok ([("id", Val.str "1"), ("status", Val.str "created")], st2) ∧
      st2.order.length = 1 ∧
      dictGet? (st2.order.headD []) "customer_email" = some (Val.str "") :=
  ⟨rfl, ⟨_, rfl, rfl, rfl⟩⟩

/-- C2 amended: order-creation validation is structural only — a payload
missing `customer_email` is rejected client-side (422, naming the field)
before any store access, but any string value of `customer_email`,
including the empty string, passes validation and the order is written. -/
theorem order_validation_shallow (st : Store) (email : String)
    (hfail : st.failMsg = Option.none) :
    (∃ st2, create_order_endpoint st (orderBody email) =
        .ok ([("id", Val.str (toString st.nextId)), ("status", Val.str "created")], st2) ∧
      st2.order.length = st.order.length + 1) ∧
    create_order_endpoint st orderBodyNoEmail =
      .error ⟨422, "field required: customer_email"⟩ := by
  obtain ⟨nm, ni, fm, pr, od⟩ := st
  have hfm : fm = Option.none := hfail
  subst hfm
  refine ⟨⟨_, rfl, ?_⟩, rfl⟩
  simp [Store.setColl, Store.coll]

/-- Witness for `to_str_id_contract` at a concrete document. -/
theorem to_str_id_contract_witness :
    (∀ p ∈ [("title", Val.str "Cloak")], p.1 ≠ "_id") ∧
    (to_str_id [("_id", Val.oid "64ad"), ("title", Val.str "Cloak")] =
        .ok (dictSet [("title", Val.str "Cloak")] "id" (Val.str (pyStr (Val.oid "64ad")))) ∧
      to_str_id ([] : PyDict) = .ok []) :=
  ⟨by decide, to_str_id_contract (Val.oid "64ad") [("title", Val.str "Cloak")] (by decide)⟩

/-- Witness for `list_products_refines_spec` at a concrete store and
concrete filters. -/
theorem list_products_refines_spec_witness :
    demoProductStore.failMsg = Option.none ∧
    (∀ d ∈ demoProductStore.product, colorsListOk d = true) ∧
    (∀ d ∈ demoProductStore.product, hasId d = true) ∧
    (list_products (some demoProductStore) (some "levi") (some "black") (some "cloak") =
        .ok ((demoProductStore.product.filter
          (specMatches (some "levi") (some "black") (some "cloak"))).map publicView) ∧
      list_products (some demoProductStore) Option.none Option.none Option.none =
        .ok (demoProductStore.product.map publicView)) :=
  ⟨rfl, by decide, by decide,
    list_products_refines_spec demoProductStore (some "levi") (some "black") (some "cloak")
      rfl (by decide) (by decide)⟩

/-- Witness for `empty_filter_params_ignored` at a concrete store and
concrete filters. -/
theorem empty_filter_params_ignored_witness :
    demoProductStore.failMsg = Option.none ∧
    (list_products (some demoProductStore) (some "") (some "black") Option.none =
        list_products (some demoProductStore)
          (normParam (some "")) (normParam (some "black")) (normParam Option.none) ∧
      list_products (some demoProductStore) (some "") (some "") (some "") =
        mapExcept to_str_id demoProductStore.product) :=
  ⟨rfl, empty_filter_params_ignored demoProductStore (some "") (some "black") Option.none rfl⟩

/-- Witness for `seed_products_exactly_once` at the empty store. -/
theorem seed_products_exactly_once_witness :
    emptyStore.failMsg = Option.none ∧
    ((emptyStore.product.length ≠ 0 →
        seed_products (some emptyStore) = .ok (some emptyStore)) ∧
      (emptyStore.product.length = 0 →
        ∃ st2, seed_products (some emptyStore) = .ok (some st2) ∧
          st2.product.length = 3 ∧
          st2.product.map (fun d => dictRemove d "_id") = seedData ∧
          seed_products (some st2) = .ok (some st2))) :=
  ⟨rfl, seed_products_exactly_once emptyStore rfl⟩

/-- Witness for `create_order_success_contract` at a concrete store and
payload. -/
theorem create_order_success_contract_witness :
    emptyStore.failMsg = Option.none ∧
    validateCreateOrder (orderBody "ada@example.com") = .ok demoPayload ∧
    ∃ st2 d,
      create_order_endpoint emptyStore (orderBody "ada@example.com") =
        .ok ([("id", Val.str (toString emptyStore.nextId)), ("status", Val.str "created")],
          st2) ∧
      st2.order = emptyStore.order ++ [d] ∧
      dictGet? d "status" = some (Val.str "pending") ∧
      dictGet? d "_id" = some (Val.oid (toString emptyStore.nextId)) :=
  ⟨rfl, rfl,
    create_order_success_contract emptyStore (orderBody "ada@example.com") demoPayload rfl rfl⟩

/-- Witness for `create_order_store_error` at a concrete failing store. -/
theorem create_order_store_error_witness :
    (failingStore "boom").failMsg = some "boom" ∧
    validateCreateOrder (orderBody "ada@example.com") = .ok demoPayload ∧
    create_order_endpoint (failingStore "boom") (orderBody "ada@example.com") =
      .error ⟨500, "boom"⟩ :=
  ⟨rfl, rfl,
    create_order_store_error (failingStore "boom") "boom" (orderBody "ada@example.com")
      demoPayload rfl rfl⟩

/-- Witness for `order_validation_shallow` at the empty store and the
empty-string email. -/
theorem order_validation_shallow_witness :
    emptyStore.failMsg = Option.none ∧
    ((∃ st2, create_order_endpoint emptyStore (orderBody "") =
        .ok ([("id", Val.str (toString emptyStore.nextId)), ("status", Val.str "created")],
          st2) ∧
      st2.order.length = emptyStore.order.length + 1) ∧
    create_order_endpoint emptyStore orderBodyNoEmail =
      .error ⟨422, "field required: customer_email"⟩) :=
  ⟨rfl, order_validation_shallow emptyStore "" rfl⟩

end AnimeShop
